import Mathlib

/-!
Shallow embedding of the InteractComp repository core:
the turn-bounded agent decision loop (`src/workflow/InteractComp.py`,
class `InteractCompAgent`) and the multi-model consensus benchmark
(`src/benchmarks/InteractComp.py`, class `InteractCompBenchmark`).

Conventions of the embedding:
* Python strings are Lean `String`; string primitives used by the
  embedded code (`str.strip()`, `str.lower()`, slicing, prefix test,
  `tok in s`) are implemented on the character list of the string
  (`pyStrip`, `strLower`, `strDrop`, `strStartsWith`, `strContains`),
  mirroring Python's per-code-point semantics.
* Monetary costs (Python floats holding dollar amounts) are modelled
  as rationals `ℚ`.
* Each `await`ed external call (the decision LLM, the clarifier
  user-agent, the search engine, the grading LLM) is a port: a function
  from its request to `Except String result`, where `Except.error`
  models a raised exception carrying `str(e)`.
* Python dicts used as records become structures with `Option` fields
  for keys that are present only on some paths.
-/

namespace InteractComp

/-- One search result record (the search port returns a list of dicts
with `title`/`snippet` fields; only stored and counted by the loop). -/
structure SearchResult where
  title : String
  snippet : String
deriving Repr, DecidableEq

/-- One turn record of the agent loop: the Python dict built in
`InteractCompAgent.__call__` (src/workflow/InteractComp.py lines 61-103).
Fields that are only present on some paths are `Option`-valued
(`none` = key absent); `forced` is only ever set to `True`
(absent = `false`). -/
structure TurnRecord where
  turn : Nat
  action_type : String
  cost : ℚ
  thought : Option String := none
  action : Option String := none
  final_answer : Option String := none
  question_asked : Option String := none
  response : Option String := none
  search_query : Option String := none
  search_results : Option (List SearchResult) := none
  search_results_count : Option Nat := none
  error : Option String := none
  forced : Bool := false
deriving Repr, DecidableEq

/-- One evaluation problem: `problem_data["question"]` and
`problem_data["context"]` (the hidden context handed to the clarifier
via `self.user_agent.reset(problem_data["context"])`). -/
structure Problem where
  question : String
  context : String
deriving Repr, DecidableEq

/-- The external ports consumed by one agent-loop run.
`decide` is the composite of the decision LLM call and
`parse_response` in `_get_agent_decision`: prompt ↦ parsed
`(thought, action, cost)` triple, or the raised exception's message.
`clarify` is `UserAgent.answer` (context, question ↦ response);
`search` is the search engine's `search` (query ↦ result list). -/
structure Env where
  decide : String → Except String (String × String × ℚ)
  clarify : String → String → Except String String
  search : String → Except String (List SearchResult)

/-- Leading/trailing-whitespace removal on a character list. -/
def trimChars (l : List Char) : List Char :=
  ((l.dropWhile Char.isWhitespace).reverse.dropWhile Char.isWhitespace).reverse

/-- Python `str.strip()`. -/
def pyStrip (s : String) : String := ⟨trimChars s.toList⟩

/-- Lowercasing a string, Python `str.lower()`. -/
def strLower (s : String) : String := ⟨s.toList.map Char.toLower⟩

/-- Python `s[n:]` (drop the first `n` code points). -/
def strDrop (s : String) (n : Nat) : String := ⟨s.toList.drop n⟩

/-- Python `s.startswith(pre)`. -/
def strStartsWith (s pre : String) : Bool := pre.toList.isPrefixOf s.toList

/-- Whether `pat` occurs as a contiguous run inside `hay`. -/
def charListContains (hay pat : List Char) : Bool :=
  match hay with
  | [] => pat.isEmpty
  | _ :: rest => pat.isPrefixOf hay || charListContains rest pat

/-- Python `tok in s`: substring containment. -/
def strContains (s tok : String) : Bool := charListContains s.toList tok.toList

/-- `InteractCompAgent._get_action_type` (lines 116-123): classify an
action string by its prefix. -/
def getActionType (action : String) : String :=
  if strStartsWith action "ask:" then "ask"
  else if strStartsWith action "search:" then "search"
  else if strStartsWith action "answer:" then "answer"
  else "invalid"

/-- `InteractCompAgent._get_agent_decision` (lines 183-193): the
try/except around the decision port. On success the parsed
`(thought, action, cost)` triple is returned; on any exception the
sentinel `("no thought", "no action", 0.0)` is returned — the failure
is never re-raised. -/
def getAgentDecision (r : Except String (String × String × ℚ)) :
    String × String × ℚ :=
  match r with
  | .ok v => v
  | .error _ => ("no thought", "no action", 0)

/-- Modelled from the spec: the decision-port retry wrapper. The retry
lives inside the `AsyncLLM` client (`utils/async_llm.py`), whose source
is not part of this repository snapshot; the spec states that
decision-port calls are retried up to 3 attempts with a fixed
inter-attempt delay (the delay has no observable value content here)
and that the final attempt's failure is the call's failure. Given the
outcomes of the three attempts, the call returns the first success,
else the third attempt's failure. -/
def retryCall {α : Type} (a1 a2 a3 : Except String α) : Except String α :=
  match a1 with
  | .ok v => .ok v
  | .error _ =>
    match a2 with
    | .ok v => .ok v
    | .error _ => a3

/-- Rendering of an optional string field for prompt serialization. -/
def renderOpt : Option String → String
  | none => "None"
  | some s => s

/-- Deterministic serialization of one turn record. Python interpolates
the history list into prompts as `f"{history}"` (the `repr` of the
dicts); no claim depends on the exact text, so the embedding uses a
fixed order-preserving rendering of the fields. -/
def renderRecord (r : TurnRecord) : String :=
  "(turn: " ++ toString r.turn ++ ", thought: " ++ renderOpt r.thought ++
  ", action: " ++ renderOpt r.action ++ ", action_type: " ++ r.action_type ++
  ", final_answer: " ++ renderOpt r.final_answer ++
  ", question_asked: " ++ renderOpt r.question_asked ++
  ", response: " ++ renderOpt r.response ++
  ", search_query: " ++ renderOpt r.search_query ++
  ", error: " ++ renderOpt r.error ++
  ", forced: " ++ toString r.forced ++ ")"

/-- Deterministic serialization of the history list (see
`renderRecord`). -/
def renderHistory (hist : List TurnRecord) : String :=
  "[" ++ String.intercalate ", " (hist.map renderRecord) ++ "]"

/-- `BASE_PROMPT` from src/workflow/prompt.py. -/
def BASE_PROMPT : String :=
  "You are an intelligent search agent designed to answer questions by strategically gathering information.\n\nYour task: Given a question that might have multiple plausible answers, determine the correct answer through targeted information gathering.\n\nAvailable actions:\n- ask: Ask a specific question to get more information\n- search: Search for external information using a search engine  \n- answer: Provide your final answer when confident\n\nStrategy: \n- Focus on asking questions that help distinguish between similar options\n- Use search to verify or find additional information\n- Answer when you have sufficient distinguishing information\n\nFormat your response as:\n<thought>Your reasoning about what to do next</thought>\n<action>ask:question OR search:query OR answer:your_answer</action>"

/-- `InteractCompAgent._build_prompt` (lines 173-181): joins the turn
banner, the base prompt, the question block and the serialized history
with newlines (the two adjacent f-strings on lines 177-178 concatenate). -/
def buildPrompt (question : String) (hist : List TurnRecord)
    (turn maxTurns : Nat) : String :=
  String.intercalate "\n" [
    "\nTurn: " ++ toString (turn + 1) ++ "/" ++ toString maxTurns,
    BASE_PROMPT,
    "\nInformation you have gathered:\nQuestion: " ++ question,
    "\nConversation History: " ++ renderHistory hist]

/-- `FORCE_PROMPT` from src/workflow/prompt.py, with the `question` and
`evidence_text` fields spliced in by `str.format` as in
`_force_answer` line 197 (`evidence_text=f"{history}"`). -/
def forcePromptStr (question : String) (hist : List TurnRecord) : String :=
  "Based on the information you have gathered, you must now provide a final answer.\n\nOriginal Question: " ++ question ++
  "\n\nEvidence Collected:\n" ++ renderHistory hist ++
  "\n\nCRITICAL ANALYSIS INSTRUCTIONS:\n1. Carefully analyze the SPECIFIC EVIDENCE you collected above\n2. Look for UNIQUE DISTINGUISHING FEATURES in the evidence\n3. Do NOT default to the most popular/well-known answer\n4. Base your answer STRICTLY on the evidence that matches the question\x27s criteria\n5. Pay special attention to technical details, structural features, or unique characteristics mentioned\n\n<thought>Analyze the evidence step by step and identify which answer best matches the specific details collected</thought>\n<action>answer:your_evidence_based_final_answer</action>"

/-- The common part of each in-budget turn record (lines 61-67):
turn index (1-based), thought, raw action, classified action type and
the decision's cost. -/
def baseRecord (turn : Nat) (d : String × String × ℚ) (atype : String) :
    TurnRecord :=
  { turn := turn + 1, thought := some d.1, action := some d.2.1,
    action_type := atype, cost := d.2.2 }

/-- `InteractCompAgent.answer` (lines 125-128): the final answer is the
WHOLE action string stripped (`action.strip()` — the `answer:` prefix is
not removed), recorded under `final_answer`. -/
def answerRecord (turn : Nat) (d : String × String × ℚ) (atype : String) :
    TurnRecord :=
  { baseRecord turn d atype with final_answer := some (pyStrip d.2.1) }

/-- `InteractCompAgent.ask` (lines 130-142): the question forwarded to
the clarifier is the WHOLE action string stripped (`action.strip()` —
the `ask:` prefix is not removed). A clarifier exception is caught:
`response` is set to the sentinel `"Error in response"` and the message
is recorded under `error`. -/
def askRecord (env : Env) (prob : Problem) (turn : Nat)
    (d : String × String × ℚ) (atype : String) : TurnRecord :=
  let q := pyStrip d.2.1
  let b := { baseRecord turn d atype with question_asked := some q }
  match env.clarify prob.context q with
  | .ok resp => { b with response := some resp }
  | .error e => { b with response := some "Error in response", error := some e }

/-- `InteractCompAgent.search` (lines 144-171): the query is
`action[7:].strip()` (the `search:` prefix removed). A search exception
is caught: results are recorded empty with count 0 and the message
under `error`. -/
def searchRecord (env : Env) (turn : Nat) (d : String × String × ℚ)
    (atype : String) : TurnRecord :=
  let q := pyStrip (strDrop d.2.1 7)
  let b := { baseRecord turn d atype with search_query := some q }
  match env.search q with
  | .ok rs =>
    { b with
        search_results := some rs,
        search_results_count := some rs.length }
  | .error e =>
    { b with
        search_results := some [],
        search_results_count := some 0,
        error := some e }

/-- The `else` branch of the dispatch (lines 80-85): the record's
`action_type` is (re)set to `"invalid"` and an error string recorded. -/
def invalidRecord (turn : Nat) (d : String × String × ℚ) : TurnRecord :=
  { baseRecord turn d "invalid" with
    error := some ("Invalid action: " ++ d.2.1) }

/-- The non-answer arms of the dispatch in `__call__` (lines 74-85):
`ask`, `search`, else invalid. Only reached when `atype ≠ "answer"`. -/
def stepRecord (env : Env) (prob : Problem) (turn : Nat)
    (d : String × String × ℚ) (atype : String) : TurnRecord :=
  if atype = "ask" then askRecord env prob turn d atype
  else if atype = "search" then searchRecord env turn d atype
  else invalidRecord turn d

/-- `InteractCompAgent._force_answer` (lines 195-208): one more
decision-port call on the force prompt; if the action carries the
`answer:` prefix its payload (`action[7:].strip()`) is the final
answer, else the sentinel `"No final answer provided"`. (The outer
try/except of `_force_answer` is unreachable because
`_get_agent_decision` never raises.) -/
def forceAnswer (env : Env) (question : String) (hist : List TurnRecord) :
    String × ℚ :=
  let d := getAgentDecision (env.decide (forcePromptStr question hist))
  if strStartsWith d.2.1 "answer:" then (pyStrip (strDrop d.2.1 7), d.2.2)
  else ("No final answer provided", d.2.2)

/-- The turn record appended on the forced-answer path
(`__call__` lines 95-103). -/
def forcedRecord (maxTurns : Nat) (fa : String) (fc : ℚ) : TurnRecord :=
  { turn := maxTurns + 1, final_answer := some fa, forced := true,
    cost := fc, action_type := "answer" }

/-- The turn loop of `InteractCompAgent.__call__` (lines 49-105),
recursing on the remaining in-budget turns `r` (at every reachable
state `turn + r = maxTurns`). With budget left, one decision is made
and dispatched: an `answer` action returns immediately with the
stripped whole action as final answer; any other action appends its
record and continues. With the budget exhausted the forced-answer path
runs (lines 87-105). -/
def loopAux (env : Env) (prob : Problem) (maxTurns : Nat) :
    Nat → Nat → List TurnRecord → ℚ → String × List TurnRecord × ℚ
  | 0, _turn, hist, totalCost =>
    let fr := forceAnswer env prob.question hist
    (fr.1, hist ++ [forcedRecord maxTurns fr.1 fr.2], totalCost + fr.2)
  | (r + 1), turn, hist, totalCost =>
    let d := getAgentDecision (env.decide (buildPrompt prob.question hist turn maxTurns))
    let atype := getActionType d.2.1
    if atype = "answer" then
      (pyStrip d.2.1, hist ++ [answerRecord turn d atype], totalCost + d.2.2)
    else
      loopAux env prob maxTurns r (turn + 1)
        (hist ++ [stepRecord env prob turn d atype]) (totalCost + d.2.2)

/-- `InteractCompAgent.__call__` (lines 41-105): run the loop from
turn 0 with empty history and zero accumulated cost, returning
`(final_answer, history, total_cost)`. -/
def interactCompCall (env : Env) (prob : Problem) (maxTurns : Nat) :
    String × List TurnRecord × ℚ :=
  loopAux env prob maxTurns maxTurns 0 [] 0

/-- Ghost instrumentation: the number of decision-port invocations the
loop performs from a given state, mirroring `loopAux` step for step
(one invocation per executed in-budget turn, one inside the forced
answer; clarifier/search port calls are not decision invocations). -/
def loopDecisionCalls (env : Env) (prob : Problem) (maxTurns : Nat) :
    Nat → Nat → List TurnRecord → Nat
  | 0, _turn, _hist => 1
  | (r + 1), turn, hist =>
    let d := getAgentDecision (env.decide (buildPrompt prob.question hist turn maxTurns))
    let atype := getActionType d.2.1
    if atype = "answer" then 1
    else 1 + loopDecisionCalls env prob maxTurns r (turn + 1)
      (hist ++ [stepRecord env prob turn d atype])

/-- `GRADING_PROMPT` from src/benchmarks/InteractComp.py (lines 16-32),
with the three fields spliced in by `str.format` as in
`calculate_score` lines 146-150. -/
def gradingPrompt (question predicted correct : String) : String :=
  "\nYou are an impartial grader.\n\nQuestion: " ++ question ++
  "\nPredicted Answer: " ++ predicted ++
  "\nCorrect Answer: " ++ correct ++
  "\n\nCRITICAL GRADING INSTRUCTIONS:\n1. The predicted answer must match the CORRECT ANSWER\n2. Look for EXACT name matches or clear references to the same entity\n3. Consider different languages, translations, or alternative names as potential matches\n4. Be strict: partial matches or vague similarities should be \x27no\x27\n\nIMPORTANT: Give ONLY one score:\n- \x27yes\x27: The predicted answer correctly identifies the same entity as the correct answer\n- \x27no\x27: The predicted answer is wrong, matches the popular answer, or refers to a different entity\n\nRespond with ONLY \x27yes\x27 or \x27no\x27, nothing else."

/-- `InteractCompBenchmark.calculate_score` (lines 144-164). The judge
port (`self.grader_llm`) is called on the grading prompt; the response
is graded 1.0 if `"yes" in response.strip().lower()`, else 0.0 if
`"no" in response.strip().lower()`, else 0.0; any raised exception is
caught and graded 0.0. -/
def calculate_score (judge : String → Except String String)
    (question correct predicted : String) : ℚ :=
  match judge (gradingPrompt question predicted correct) with
  | .error _ => 0
  | .ok response =>
    if strContains (strLower (pyStrip response)) "yes" then 1
    else if strContains (strLower (pyStrip response)) "no" then 0
    else 0

/-- A turn-record field is truthy in Python iff the key is present and
the string non-empty. -/
def truthyOpt : Option String → Option String
  | none => none
  | some s => if s = "" then none else some s

/-- Serialization of a search-result list inside
`_generate_history_summary` (Python interpolates the list's `repr`;
modelled as a fixed deterministic rendering — no claim depends on it). -/
def renderResults (rs : List SearchResult) : String :=
  "[" ++ String.intercalate ", "
    (rs.map (fun r => "(title: " ++ r.title ++ ", snippet: " ++ r.snippet ++ ")"))
    ++ "]"

/-- The per-item branch of
`InteractCompBenchmark._generate_history_summary` (lines 170-184):
an `Ask`, `Search` or `Answer` line, or nothing. -/
def summaryItem (r : TurnRecord) : Option String :=
  match truthyOpt r.question_asked with
  | some q =>
    some ("T" ++ toString r.turn ++ ":Ask(" ++ q ++ ") Result:" ++
      (match r.response with | some resp => resp | none => "?"))
  | none =>
    match truthyOpt r.search_query with
    | some q =>
      some ("T" ++ toString r.turn ++ ":Search(" ++ q ++ ") Result:" ++
        renderResults (match r.search_results with | some rs => rs | none => []))
    | none =>
      match truthyOpt r.final_answer with
      | some a => some ("T" ++ toString r.turn ++ ":Answer(" ++ a ++ ")")
      | none => none

/-- `InteractCompBenchmark._generate_history_summary` (lines 166-186):
`"No interactions"` for an empty history, else the rendered list of
per-item summary lines. -/
def historySummary (hist : List TurnRecord) : String :=
  if hist = [] then "No interactions"
  else
    "[" ++ String.intercalate ", "
      ((hist.filterMap summaryItem).map (fun p => "\x27" ++ p ++ "\x27")) ++ "]"

/-- One committee member's entry in `model_results`
(`_evaluate_multi_model` lines 112-117 on success, 127-133 on
failure). -/
structure ModelVerdict where
  answer : String
  correct : Bool
  cost : ℚ
  history : String
  error : Option String := none
deriving Repr, DecidableEq

/-- One committee member's evaluation: the body of the `try` in
`_evaluate_multi_model` (lines 101-133). `run m` is the member's whole
agent run (`agent_factory(model_name)` + `_generate_output`, including
the tenacity retry, which re-raises after its final attempt); a raised
exception is caught and recorded as a failure verdict with
`is_correct = false`, `cost = 0` and the message under `error`. On
success the answer is graded by `calculate_score` (which never
raises). -/
def evalMember (judge : String → Except String String)
    (run : String → Except String (String × List TurnRecord × ℚ))
    (question correct : String) (m : String) : ModelVerdict :=
  match run m with
  | .ok (pred, hist, cost) =>
    let sc := calculate_score judge question correct pred
    { answer := pred, correct := sc != 0, cost := cost,
      history := historySummary hist }
  | .error e =>
    { answer := "Evaluation failed", correct := false, cost := 0,
      history := "Error", error := some e }

/-- The aggregate returned by `_evaluate_multi_model` (line 142), as a
named tuple: `(question, correct_answer, model_results,
correct_models_count, quality_score, total_cost)`. -/
structure MultiModelResult where
  question : String
  correct_answer : String
  model_results : List (String × ModelVerdict)
  correct_models_count : Nat
  quality_score : ℚ
  total_cost : ℚ
deriving Repr, DecidableEq

/-- `InteractCompBenchmark._evaluate_multi_model` (lines 90-142): fold
over the configured models, accumulating the per-model verdicts, the
running total cost (a failed member contributes `0`) and the count of
correct members; then `quality_score = 1.0 - correct_count / N`. -/
def evaluateMultiModel (models : List String)
    (judge : String → Except String String)
    (run : String → Except String (String × List TurnRecord × ℚ))
    (question correct : String) : MultiModelResult :=
  let acc := models.foldl
    (fun (acc : List (String × ModelVerdict) × ℚ × Nat) m =>
      let v := evalMember judge run question correct m
      (acc.1 ++ [(m, v)], acc.2.1 + v.cost,
        acc.2.2 + (if v.correct then 1 else 0)))
    ([], 0, 0)
  { question := question, correct_answer := correct,
    model_results := acc.1, correct_models_count := acc.2.2,
    quality_score := 1 - (acc.2.2 : ℚ) / (models.length : ℚ),
    total_cost := acc.2.1 }

/-- The derived quality-failed flag: `correct_models_count >= 2`
(`_evaluate_multi_model` line 136, re-derived as `result[3] >= 2` in
`run_multi_model_evaluation` lines 209 and 235). -/
def quality_failed (res : MultiModelResult) : Bool :=
  res.correct_models_count ≥ 2

/-- `InteractCompBenchmark.get_result_columns` (lines 188-196): the
result-row column names, by evaluation mode. -/
def get_result_columns (multiModelMode : Bool) : List String :=
  if multiModelMode then
    ["question", "correct_answer", "model_results", "correct_models_count",
      "quality_score", "total_cost"]
  else
    ["question", "correct_answer", "predicted_answer", "history_summary",
      "score", "cost"]

/-- Record `i` (0-based) of the transcript carries turn index `i + 1`. -/
def turnsIndexed (l : List TurnRecord) : Prop :=
  ∀ i (h : i < l.length), (l.get ⟨i, h⟩).turn = i + 1

/-- The last transcript record is an `answer` record. -/
def lastIsAnswer (l : List TurnRecord) : Prop :=
  ∃ r, l.getLast? = some r ∧ r.action_type = "answer"

/-- No transcript record other than the last one is an `answer`
record (no record follows the terminal one). -/
def noAnswerBeforeLast (l : List TurnRecord) : Prop :=
  ∀ i (h : i < l.length), i + 1 < l.length →
    (l.get ⟨i, h⟩).action_type ≠ "answer"

/-- The records' `turn` fields are consecutive starting at `n`
(recursion-friendly phrasing of `turnsIndexed`, used in the loop
induction). -/
def turnsFrom : Nat → List TurnRecord → Prop
  | _, [] => True
  | n, r :: rest => r.turn = n ∧ turnsFrom (n + 1) rest

/-- Concrete environment: every decision is `answer: 42` at unit cost. -/
def envAnswer42 : Env :=
  { decide := fun _ => .ok ("t", "answer: 42", 1),
    clarify := fun _ _ => .ok "Yes",
    search := fun _ => .ok [] }

/-- Concrete environment: every decision is the unclassifiable action
`garbage` (no action prefix). -/
def envAllInvalid : Env :=
  { decide := fun _ => .ok ("t", "garbage", 2),
    clarify := fun _ _ => .ok "Yes",
    search := fun _ => .ok [] }

/-- Concrete environment: the decision port raises on every call. -/
def envDecideFails : Env :=
  { decide := fun _ => .error "down",
    clarify := fun _ _ => .ok "Yes",
    search := fun _ => .ok [] }

/-- Concrete environment: every decision asks `ask: is it red?` and the
clarifier raises. -/
def envAskFails : Env :=
  { decide := fun _ => .ok ("t", "ask: is it red?", 1),
    clarify := fun _ _ => .error "boom",
    search := fun _ => .ok [] }

/-- Concrete environment: every decision answers with the `answer:`
prefix and payload `apple`. -/
def envAnswerApple : Env :=
  { decide := fun _ => .ok ("t", "answer:apple", 1),
    clarify := fun _ _ => .ok "Yes",
    search := fun _ => .ok [] }

/-- A concrete problem input. -/
def probX : Problem := { question := "q", context := "hidden" }

/-- The column layout asserted by the spec's result-export contract,
written from the spec's words (for comparison with
`get_result_columns`): question, ground-truth answer, one pair of
columns (predicted answer, correctness) per committee member, the
aggregate correct-count, the quality-failed flag, and the total cost. -/
def specClaimedColumns (models : List String) : List String :=
  ["question", "correct_answer"] ++
  (models.flatMap (fun m => [m ++ "_answer", m ++ "_correct"])) ++
  ["correct_models_count", "quality_failed", "total_cost"]

/-! ### Helper lemmas about the turn records built by the loop -/

lemma baseRecord_turn (turn : Nat) (d : String × String × ℚ) (atype : String) :
    (baseRecord turn d atype).turn = turn + 1 := rfl

lemma askRecord_turn (env : Env) (prob : Problem) (turn : Nat)
    (d : String × String × ℚ) (atype : String) :
    (askRecord env prob turn d atype).turn = turn + 1 := by
  unfold askRecord
  cases h : env.clarify prob.context (pyStrip d.2.1) <;> simp [h, baseRecord]

lemma askRecord_action_type (env : Env) (prob : Problem) (turn : Nat)
    (d : String × String × ℚ) (atype : String) :
    (askRecord env prob turn d atype).action_type = atype := by
  unfold askRecord
  cases h : env.clarify prob.context (pyStrip d.2.1) <;> simp [h, baseRecord]

lemma askRecord_question_asked (env : Env) (prob : Problem) (turn : Nat)
    (d : String × String × ℚ) (atype : String) :
    (askRecord env prob turn d atype).question_asked = some (pyStrip d.2.1) := by
  unfold askRecord
  cases h : env.clarify prob.context (pyStrip d.2.1) <;> simp [h, baseRecord]

lemma searchRecord_turn (env : Env) (turn : Nat)
    (d : String × String × ℚ) (atype : String) :
    (searchRecord env turn d atype).turn = turn + 1 := by
  unfold searchRecord
  cases h : env.search (pyStrip (strDrop d.2.1 7)) <;> simp [h, baseRecord]

lemma searchRecord_action_type (env : Env) (turn : Nat)
    (d : String × String × ℚ) (atype : String) :
    (searchRecord env turn d atype).action_type = atype := by
  unfold searchRecord
  cases h : env.search (pyStrip (strDrop d.2.1 7)) <;> simp [h, baseRecord]

lemma invalidRecord_turn (turn : Nat) (d : String × String × ℚ) :
    (invalidRecord turn d).turn = turn + 1 := rfl

lemma invalidRecord_action_type (turn : Nat) (d : String × String × ℚ) :
    (invalidRecord turn d).action_type = "invalid" := rfl

lemma stepRecord_turn (env : Env) (prob : Problem) (turn : Nat)
    (d : String × String × ℚ) (atype : String) :
    (stepRecord env prob turn d atype).turn = turn + 1 := by
  unfold stepRecord
  split
  · exact askRecord_turn ..
  split
  · exact searchRecord_turn ..
  · exact invalidRecord_turn ..

lemma stepRecord_action_type_ne_answer (env : Env) (prob : Problem)
    (turn : Nat) (d : String × String × ℚ) (atype : String)
    (h : atype ≠ "answer") :
    (stepRecord env prob turn d atype).action_type ≠ "answer" := by
  unfold stepRecord
  split
  · rw [askRecord_action_type]; exact h
  split
  · rw [searchRecord_action_type]; exact h
  · rw [invalidRecord_action_type]; decide

lemma answerRecord_turn (turn : Nat) (d : String × String × ℚ)
    (atype : String) : (answerRecord turn d atype).turn = turn + 1 := rfl

lemma answerRecord_action_type (turn : Nat) (d : String × String × ℚ)
    (atype : String) : (answerRecord turn d atype).action_type = atype := rfl

lemma forcedRecord_fields (k : Nat) (fa : String) (fc : ℚ) :
    (forcedRecord k fa fc).turn = k + 1
    ∧ (forcedRecord k fa fc).action_type = "answer"
    ∧ (forcedRecord k fa fc).forced = true := ⟨rfl, rfl, rfl⟩

/-! ### Helper lemmas about `turnsFrom` -/

lemma turnsFrom_concat (l : List TurnRecord) (r : TurnRecord) :
    ∀ n, turnsFrom n l → r.turn = n + l.length → turnsFrom n (l ++ [r]) := by
  induction l with
  | nil => intro n _ hr; exact ⟨by simpa using hr, trivial⟩
  | cons x rest ih =>
    intro n hx hr
    exact ⟨hx.1, ih (n + 1) hx.2 (by simp at hr ⊢; omega)⟩

lemma turnsFrom_get (l : List TurnRecord) :
    ∀ n, turnsFrom n l → ∀ i (h : i < l.length), (l.get ⟨i, h⟩).turn = n + i := by
  induction l with
  | nil => intro n _ i h; simp at h
  | cons x rest ih =>
    intro n hl i h
    cases i with
    | zero => simpa using hl.1
    | succ j =>
      have := ih (n + 1) hl.2 j (by simpa using h)
      simpa [Nat.add_comm, Nat.add_assoc, Nat.add_left_comm] using this

/-! ### The loop shape invariant -/

/-- Unfolding equation for `loopAux` with budget left. -/
lemma loopAux_succ (env : Env) (prob : Problem) (k r turn : Nat)
    (hist : List TurnRecord) (tc : ℚ) :
    loopAux env prob k (r + 1) turn hist tc =
      (if getActionType (getAgentDecision
            (env.decide (buildPrompt prob.question hist turn k))).2.1 = "answer" then
        (pyStrip (getAgentDecision (env.decide (buildPrompt prob.question hist turn k))).2.1,
          hist ++ [answerRecord turn
            (getAgentDecision (env.decide (buildPrompt prob.question hist turn k)))
            (getActionType (getAgentDecision
              (env.decide (buildPrompt prob.question hist turn k))).2.1)],
          tc + (getAgentDecision (env.decide (buildPrompt prob.question hist turn k))).2.2)
      else
        loopAux env prob k r (turn + 1)
          (hist ++ [stepRecord env prob turn
            (getAgentDecision (env.decide (buildPrompt prob.question hist turn k)))
            (getActionType (getAgentDecision
              (env.decide (buildPrompt prob.question hist turn k))).2.1)])
          (tc + (getAgentDecision
            (env.decide (buildPrompt prob.question hist turn k))).2.2)) := rfl

/-- Unfolding equation for `loopAux` with the budget exhausted. -/
lemma loopAux_zero (env : Env) (prob : Problem) (k turn : Nat)
    (hist : List TurnRecord) (tc : ℚ) :
    loopAux env prob k 0 turn hist tc =
      ((forceAnswer env prob.question hist).1,
        hist ++ [forcedRecord k (forceAnswer env prob.question hist).1
          (forceAnswer env prob.question hist).2],
        tc + (forceAnswer env prob.question hist).2) := rfl

/-- Core invariant of `loopAux`: from any reachable state (history of
`turn` records with consecutive turn indices and no answer record,
`turn + r = maxTurns`), the loop returns a transcript of the form
`pre ++ [last]` extending the history, of length at most
`maxTurns + 1`, with consecutive turn indices, whose last record is an
`answer` record and whose other records are not. -/
lemma loopAux_shape (env : Env) (prob : Problem) (k : Nat) :
    ∀ (r turn : Nat) (hist : List TurnRecord) (tc : ℚ),
      turn + r = k →
      hist.length = turn →
      turnsFrom 1 hist →
      (∀ x ∈ hist, x.action_type ≠ "answer") →
      ∃ pre last,
        (loopAux env prob k r turn hist tc).2.1 = pre ++ [last]
        ∧ hist.length ≤ pre.length
        ∧ (pre ++ [last]).length ≤ k + 1
        ∧ turnsFrom 1 (pre ++ [last])
        ∧ last.action_type = "answer"
        ∧ (∀ x ∈ pre, x.action_type ≠ "answer") := by
  intro r
  induction r with
  | zero =>
    intro turn hist tc hturn hlen htf hna
    rw [loopAux_zero]
    refine ⟨hist, forcedRecord k (forceAnswer env prob.question hist).1
      (forceAnswer env prob.question hist).2, rfl, le_refl _, ?_, ?_, rfl, hna⟩
    · simp only [List.length_append, List.length_singleton]; omega
    · exact turnsFrom_concat hist _ 1 htf (by simp only [forcedRecord]; omega)
  | succ r ih =>
    intro turn hist tc hturn hlen htf hna
    rw [loopAux_succ]
    set d := getAgentDecision (env.decide (buildPrompt prob.question hist turn k)) with hd
    set atype := getActionType d.2.1 with hatype
    by_cases hans : atype = "answer"
    · rw [if_pos hans]
      refine ⟨hist, answerRecord turn d atype, rfl, le_refl _, ?_, ?_, ?_, hna⟩
      · simp only [List.length_append, List.length_singleton]; omega
      · exact turnsFrom_concat hist _ 1 htf (by rw [answerRecord_turn]; omega)
      · rw [answerRecord_action_type]; exact hans
    · rw [if_neg hans]
      obtain ⟨pre, last, h1, h2, h3, h4, h5, h6⟩ :=
        ih (turn + 1) (hist ++ [stepRecord env prob turn d atype]) (tc + d.2.2)
          (by omega)
          (by simp only [List.length_append, List.length_singleton]; omega)
          (turnsFrom_concat hist _ 1 htf (by rw [stepRecord_turn]; omega))
          (by
            intro x hx
            rcases List.mem_append.mp hx with hx | hx
            · exact hna x hx
            · rcases List.mem_singleton.mp hx with rfl
              exact stepRecord_action_type_ne_answer env prob turn d atype hans)
      refine ⟨pre, last, h1, ?_, h3, h4, h5, h6⟩
      have : hist.length ≤ (hist ++ [stepRecord env prob turn d atype]).length := by
        simp only [List.length_append, List.length_singleton]; omega
      omega

/-- With an all-`invalid` decision stream, the loop runs through all
remaining in-budget turns as `invalid` records and then appends a
forced-answer record. -/
lemma loopAux_allInvalid (env : Env) (prob : Problem) (k : Nat)
    (hall : ∀ s, getActionType (getAgentDecision (env.decide s)).2.1 = "invalid") :
    ∀ (r turn : Nat) (hist : List TurnRecord) (tc : ℚ),
      ∃ mid last,
        (loopAux env prob k r turn hist tc).2.1 = hist ++ mid ++ [last]
        ∧ mid.length = r
        ∧ (∀ x ∈ mid, x.action_type = "invalid")
        ∧ last.forced = true ∧ last.turn = k + 1 ∧ last.action_type = "answer" := by
  intro r
  induction r with
  | zero =>
    intro turn hist tc
    rw [loopAux_zero]
    exact ⟨[], forcedRecord k (forceAnswer env prob.question hist).1
      (forceAnswer env prob.question hist).2,
      by simp, rfl, by simp, rfl, rfl, rfl⟩
  | succ r ih =>
    intro turn hist tc
    rw [loopAux_succ]
    set d := getAgentDecision (env.decide (buildPrompt prob.question hist turn k)) with hd
    set atype := getActionType d.2.1 with hatype
    have hinv : atype = "invalid" := hall (buildPrompt prob.question hist turn k)
    have hans : atype ≠ "answer" := by rw [hinv]; decide
    rw [if_neg hans]
    obtain ⟨mid, last, h1, h2, h3, h4, h5, h6⟩ :=
      ih (turn + 1) (hist ++ [stepRecord env prob turn d atype]) (tc + d.2.2)
    have hrec : (stepRecord env prob turn d atype).action_type = "invalid" := by
      rw [hinv]
      unfold stepRecord
      rw [if_neg (by decide), if_neg (by decide)]
      exact invalidRecord_action_type ..
    refine ⟨stepRecord env prob turn d atype :: mid, last, ?_,
      by simp only [List.length_cons, h2], ?_, h4, h5, h6⟩
    · rw [h1]; simp
    · intro x hx
      rcases List.mem_cons.mp hx with rfl | hx
      · exact hrec
      · exact h3 x hx

/-! ### Decision-invocation counting -/

/-- Unfolding equation for `loopDecisionCalls` with budget left. -/
lemma loopDecisionCalls_succ (env : Env) (prob : Problem) (k r turn : Nat)
    (hist : List TurnRecord) :
    loopDecisionCalls env prob k (r + 1) turn hist =
      (if getActionType (getAgentDecision
            (env.decide (buildPrompt prob.question hist turn k))).2.1 = "answer" then 1
      else 1 + loopDecisionCalls env prob k r (turn + 1)
        (hist ++ [stepRecord env prob turn
          (getAgentDecision (env.decide (buildPrompt prob.question hist turn k)))
          (getActionType (getAgentDecision
            (env.decide (buildPrompt prob.question hist turn k))).2.1)])) := rfl

lemma loopDecisionCalls_le (env : Env) (prob : Problem) (k : Nat) :
    ∀ (r turn : Nat) (hist : List TurnRecord),
      loopDecisionCalls env prob k r turn hist ≤ r + 1 := by
  intro r
  induction r with
  | zero => intro turn hist; exact le_refl _
  | succ r ih =>
    intro turn hist
    rw [loopDecisionCalls_succ]
    set d := getAgentDecision (env.decide (buildPrompt prob.question hist turn k)) with hd
    set atype := getActionType d.2.1 with hatype
    by_cases hans : atype = "answer"
    · rw [if_pos hans]; omega
    · rw [if_neg hans]
      have := ih (turn + 1) (hist ++ [stepRecord env prob turn d atype])
      omega

lemma loopDecisionCalls_eq (env : Env) (prob : Problem) (k : Nat)
    (hne : ∀ s, getActionType (getAgentDecision (env.decide s)).2.1 ≠ "answer") :
    ∀ (r turn : Nat) (hist : List TurnRecord),
      loopDecisionCalls env prob k r turn hist = r + 1 := by
  intro r
  induction r with
  | zero => intro turn hist; rfl
  | succ r ih =>
    intro turn hist
    rw [loopDecisionCalls_succ]
    set d := getAgentDecision (env.decide (buildPrompt prob.question hist turn k)) with hd
    set atype := getActionType d.2.1 with hatype
    rw [if_neg (hne _)]
    rw [ih (turn + 1) (hist ++ [stepRecord env prob turn d atype])]
    omega

/-! ### The consensus fold -/

/-- Characterization of the member fold in `evaluateMultiModel`:
the verdicts are the per-model evaluations in order, the accumulated
total cost is the sum of the verdict costs, and the correct count is
the number of correct verdicts. -/
lemma evalFold_spec (judge : String → Except String String)
    (run : String → Except String (String × List TurnRecord × ℚ))
    (question correct : String) :
    ∀ (models : List String) (acc : List (String × ModelVerdict) × ℚ × Nat),
      models.foldl
        (fun (acc : List (String × ModelVerdict) × ℚ × Nat) m =>
          let v := evalMember judge run question correct m
          (acc.1 ++ [(m, v)], acc.2.1 + v.cost,
            acc.2.2 + (if v.correct then 1 else 0)))
        acc
      = (acc.1 ++ models.map (fun m => (m, evalMember judge run question correct m)),
         acc.2.1 + ((models.map (fun m => (evalMember judge run question correct m).cost)).sum),
         acc.2.2 + (models.filter (fun m => (evalMember judge run question correct m).correct)).length) := by
  intro models
  induction models with
  | nil => intro acc; simp
  | cons m rest ih =>
    intro acc
    simp only [List.foldl_cons, List.map_cons, List.sum_cons, List.filter_cons]
    rw [ih]
    by_cases hc : (evalMember judge run question correct m).correct
    · simp [hc]
      constructor
      · ring
      · omega
    · simp [hc]
      ring

/-! ### Claim theorems -/

/-- C3: for every committee evaluation with N configured engines, after
all members resolve, `correct_models_count` equals the number of member
verdicts graded correct, `quality_failed` holds iff
`correct_models_count ≥ 2`, `quality_score = 1 - correct_count/N`, and
`total_cost` is the sum of the member costs. -/
theorem c3_committee_aggregate (models : List String)
    (judge : String → Except String String)
    (run : String → Except String (String × List TurnRecord × ℚ))
    (question correct : String) :
    (evaluateMultiModel models judge run question correct).correct_models_count
        = ((evaluateMultiModel models judge run question correct).model_results.filter
            (fun p => p.2.correct)).length
    ∧ (quality_failed (evaluateMultiModel models judge run question correct) = true
        ↔ 2 ≤ (evaluateMultiModel models judge run question correct).correct_models_count)
    ∧ (evaluateMultiModel models judge run question correct).quality_score
        = 1 - ((evaluateMultiModel models judge run question correct).correct_models_count : ℚ)
            / (models.length : ℚ)
    ∧ (evaluateMultiModel models judge run question correct).total_cost
        = ((evaluateMultiModel models judge run question correct).model_results.map
            (fun p => p.2.cost)).sum := by
  have h := evalFold_spec judge run question correct models ([], 0, 0)
  have hres : evaluateMultiModel models judge run question correct =
      { question := question, correct_answer := correct,
        model_results := models.map (fun m => (m, evalMember judge run question correct m)),
        correct_models_count :=
          (models.filter (fun m => (evalMember judge run question correct m).correct)).length,
        quality_score := 1 -
          ((models.filter (fun m => (evalMember judge run question correct m).correct)).length : ℚ)
            / (models.length : ℚ),
        total_cost :=
          (models.map (fun m => (evalMember judge run question correct m).cost)).sum } := by
    unfold evaluateMultiModel
    rw [h]
    simp
  rw [hres]
  refine ⟨?_, ?_, rfl, ?_⟩
  · simp only [List.filter_map]
    rw [List.length_map]
    rfl
  · unfold quality_failed
    simp
  · rw [List.map_map]
    rfl

/-- C4: a committee member whose run raises is recorded as a verdict
with `correct = false`, `cost = 0` and the exception message under
`error`; every member is evaluated independently of the others; if
every member fails then `correct_models_count = 0` and
`quality_failed = false`. -/
theorem c4_member_failure_isolated (models : List String)
    (judge : String → Except String String)
    (run : String → Except String (String × List TurnRecord × ℚ))
    (question correct : String) :
    ((evaluateMultiModel models judge run question correct).model_results
        = models.map (fun m => (m, evalMember judge run question correct m)))
    ∧ (∀ m e, run m = Except.error e →
        evalMember judge run question correct m =
          { answer := "Evaluation failed", correct := false, cost := 0,
            history := "Error", error := some e })
    ∧ ((∀ m, m ∈ models → ∃ e, run m = Except.error e) →
        (evaluateMultiModel models judge run question correct).correct_models_count = 0
        ∧ quality_failed (evaluateMultiModel models judge run question correct) = false) := by
  have h := evalFold_spec judge run question correct models ([], 0, 0)
  refine ⟨?_, ?_, ?_⟩
  · unfold evaluateMultiModel
    rw [h]
    simp
  · intro m e he
    unfold evalMember
    rw [he]
  · intro hall
    have hcnt : (evaluateMultiModel models judge run question correct).correct_models_count
        = (models.filter (fun m => (evalMember judge run question correct m).correct)).length := by
      unfold evaluateMultiModel
      rw [h]
      simp
    have hnil : models.filter (fun m => (evalMember judge run question correct m).correct) = [] := by
      rw [List.filter_eq_nil_iff]
      intro m hm
      obtain ⟨e, he⟩ := hall m hm
      unfold evalMember
      rw [he]
      simp
    refine ⟨by rw [hcnt, hnil]; rfl, ?_⟩
    unfold quality_failed
    rw [hcnt, hnil]
    rfl

/-- C4 witness: a concrete committee where every member's run raises:
each verdict is the failure verdict, the correct count is 0 and the
quality flag is false. -/
theorem c4_witness :
    (evalMember (fun _ => Except.ok "yes") (fun _ => Except.error "down") "q" "gt" "A"
      = { answer := "Evaluation failed", correct := false, cost := 0,
          history := "Error", error := some "down" })
    ∧ (evaluateMultiModel ["A", "B", "C"] (fun _ => Except.ok "yes")
        (fun _ => Except.error "down") "q" "gt").correct_models_count = 0
    ∧ quality_failed (evaluateMultiModel ["A", "B", "C"] (fun _ => Except.ok "yes")
        (fun _ => Except.error "down") "q" "gt") = false :=
  ⟨(c4_member_failure_isolated ["A", "B", "C"] (fun _ => Except.ok "yes")
      (fun _ => Except.error "down") "q" "gt").2.1 "A" "down" rfl,
   ((c4_member_failure_isolated ["A", "B", "C"] (fun _ => Except.ok "yes")
      (fun _ => Except.error "down") "q" "gt").2.2 (fun _ _ => ⟨"down", rfl⟩)).1,
   ((c4_member_failure_isolated ["A", "B", "C"] (fun _ => Except.ok "yes")
      (fun _ => Except.error "down") "q" "gt").2.2 (fun _ _ => ⟨"down", rfl⟩)).2⟩

/-- C6: the grader returns score 1 or 0 by case-insensitive substring
match of the yes/no tokens on the stripped judge response; a response
with neither token scores 0, and a judge-port exception scores 0 — the
grader is fail-closed. -/
theorem c6_grader_fail_closed (judge : String → Except String String)
    (question correct predicted : String) :
    (calculate_score judge question correct predicted = 0
      ∨ calculate_score judge question correct predicted = 1)
    ∧ (∀ e, judge (gradingPrompt question predicted correct) = Except.error e →
        calculate_score judge question correct predicted = 0)
    ∧ (∀ r, judge (gradingPrompt question predicted correct) = Except.ok r →
        calculate_score judge question correct predicted =
          if strContains (strLower (pyStrip r)) "yes" then 1 else 0) := by
  cases hj : judge (gradingPrompt question predicted correct) with
  | error e =>
    have h0 : calculate_score judge question correct predicted = 0 := by
      unfold calculate_score
      rw [hj]
    refine ⟨Or.inl h0, fun _ _ => h0, fun r hr => ?_⟩
    exact absurd hr (by simp)
  | ok r =>
    have hcal : calculate_score judge question correct predicted =
        if strContains (strLower (pyStrip r)) "yes" then (1 : ℚ)
        else if strContains (strLower (pyStrip r)) "no" then 0 else 0 := by
      unfold calculate_score
      rw [hj]
    refine ⟨?_, fun e he => ?_, fun r2 hr2 => ?_⟩
    · rw [hcal]
      by_cases hy : strContains (strLower (pyStrip r)) "yes"
      · rw [if_pos hy]
        exact Or.inr rfl
      · rw [if_neg hy]
        by_cases hn : strContains (strLower (pyStrip r)) "no"
        · rw [if_pos hn]
          exact Or.inl rfl
        · rw [if_neg hn]
          exact Or.inl rfl
    · exact absurd he (by simp)
    · obtain rfl : r = r2 := by injection hr2
      rw [hcal]
      by_cases hy : strContains (strLower (pyStrip r)) "yes"
      · rw [if_pos hy, if_pos hy]
      · rw [if_neg hy, if_neg hy]
        by_cases hn : strContains (strLower (pyStrip r)) "no"
        · rw [if_pos hn]
        · rw [if_neg hn]

/-- C6 witness: a failing judge port and a judge response carrying
neither token both grade to 0. -/
theorem c6_witness :
    calculate_score (fun _ => Except.error "api down") "q" "gt" "pred" = 0
    ∧ calculate_score (fun _ => Except.ok "MAYBE") "q" "gt" "pred" = 0 :=
  ⟨(c6_grader_fail_closed (fun _ => Except.error "api down") "q" "gt" "pred").2.1
      "api down" rfl,
   by
    have h := (c6_grader_fail_closed (fun _ => Except.ok "MAYBE") "q" "gt" "pred").2.2
      "MAYBE" rfl
    rw [h]
    decide⟩

/-- C10: a judge response containing the token `yes` (case-insensitive,
after stripping) grades 1 even when it also contains `no`; the `no`
branch is only consulted when `yes` is absent. -/
theorem c10_yes_precedence (judge : String → Except String String)
    (question correct predicted r : String)
    (hok : judge (gradingPrompt question predicted correct) = Except.ok r) :
    (strContains (strLower (pyStrip r)) "yes" = true →
      calculate_score judge question correct predicted = 1)
    ∧ (strContains (strLower (pyStrip r)) "yes" = false →
        strContains (strLower (pyStrip r)) "no" = true →
        calculate_score judge question correct predicted = 0) := by
  have hcal : calculate_score judge question correct predicted =
      if strContains (strLower (pyStrip r)) "yes" then (1 : ℚ)
      else if strContains (strLower (pyStrip r)) "no" then 0 else 0 := by
    unfold calculate_score
    rw [hok]
  constructor
  · intro hy
    rw [hcal, if_pos hy]
  · intro hy hn
    rw [hcal, if_neg (by simp [hy]), if_pos hn]

/-- C10 witness: the concrete response `no. Yes` contains both tokens
and grades 1. -/
theorem c10_witness :
    strContains (strLower (pyStrip "no. Yes")) "yes" = true
    ∧ strContains (strLower (pyStrip "no. Yes")) "no" = true
    ∧ calculate_score (fun _ => Except.ok "no. Yes") "q" "gt" "pred" = 1 :=
  ⟨by decide, by decide,
   (c10_yes_precedence (fun _ => Except.ok "no. Yes") "q" "gt" "pred" "no. Yes" rfl).1
     (by decide)⟩

/-- C9 counterexample: in multi-model mode the exported row has the six
fixed columns `question, correct_answer, model_results,
correct_models_count, quality_score, total_cost` — not the
per-committee-member column pairs plus a quality-failed flag that the
claim asserts (11 columns for the default 3-engine committee). -/
theorem c9_counterexample :
    get_result_columns true
      = ["question", "correct_answer", "model_results", "correct_models_count",
          "quality_score", "total_cost"]
    ∧ (get_result_columns true).length = 6
    ∧ (specClaimedColumns ["A", "B", "C"]).length = 11
    ∧ get_result_columns true ≠ specClaimedColumns ["A", "B", "C"]
    ∧ "quality_failed" ∉ get_result_columns true
    ∧ "quality_score" ∈ get_result_columns true := by
  refine ⟨rfl, rfl, rfl, by decide, by decide, by decide⟩

/-- C9 (amended): in multi-model mode the exported row has exactly the
six columns `question, correct_answer, model_results,
correct_models_count, quality_score, total_cost`, where the single
`model_results` column nests one entry per committee member (keyed by
the member's engine name, holding its predicted answer and
correctness). -/
theorem c9_amended_columns (models : List String)
    (judge : String → Except String String)
    (run : String → Except String (String × List TurnRecord × ℚ))
    (question correct : String) :
    get_result_columns true
      = ["question", "correct_answer", "model_results", "correct_models_count",
          "quality_score", "total_cost"]
    ∧ (evaluateMultiModel models judge run question correct).model_results.map Prod.fst
        = models := by
  refine ⟨rfl, ?_⟩
  have h := evalFold_spec judge run question correct models ([], 0, 0)
  unfold evaluateMultiModel
  rw [h]
  simp only [List.nil_append, List.map_map]
  have hid : (Prod.fst ∘ fun m => (m, evalMember judge run question correct m)) = id := rfl
  rw [hid, List.map_id]

/-- C1 counterexample: with every decision returning `answer: 42` the
run returns at turn 1 with a one-record transcript, but the final
answer is the whole stripped action `answer: 42`, not the text `42`
after the `answer:` prefix as the claim states. -/
theorem c1_counterexample :
    (interactCompCall envAnswer42 probX 5).1 = "answer: 42"
    ∧ (interactCompCall envAnswer42 probX 5).2.1.length = 1
    ∧ ("answer: 42" : String) ≠ "42" :=
  ⟨rfl, rfl, by decide⟩

/-- C1 (amended): if the decision at any in-budget turn classifies as
`answer`, the loop returns immediately at that turn with the final
answer equal to the ENTIRE action string stripped of surrounding
whitespace (the `answer:` prefix retained) and the answer record
appended; any non-`answer` decision continues to the next turn, so the
`answer` branch is the only early-exit path. -/
theorem c1_amended_answer_exit (env : Env) (prob : Problem)
    (k r turn : Nat) (hist : List TurnRecord) (tc : ℚ) :
    (getActionType (getAgentDecision
        (env.decide (buildPrompt prob.question hist turn k))).2.1 = "answer" →
      loopAux env prob k (r + 1) turn hist tc =
        (pyStrip (getAgentDecision
            (env.decide (buildPrompt prob.question hist turn k))).2.1,
         hist ++ [answerRecord turn
           (getAgentDecision (env.decide (buildPrompt prob.question hist turn k)))
           (getActionType (getAgentDecision
             (env.decide (buildPrompt prob.question hist turn k))).2.1)],
         tc + (getAgentDecision
           (env.decide (buildPrompt prob.question hist turn k))).2.2))
    ∧ (getActionType (getAgentDecision
        (env.decide (buildPrompt prob.question hist turn k))).2.1 ≠ "answer" →
      loopAux env prob k (r + 1) turn hist tc =
        loopAux env prob k r (turn + 1)
          (hist ++ [stepRecord env prob turn
            (getAgentDecision (env.decide (buildPrompt prob.question hist turn k)))
            (getActionType (getAgentDecision
              (env.decide (buildPrompt prob.question hist turn k))).2.1)])
          (tc + (getAgentDecision
            (env.decide (buildPrompt prob.question hist turn k))).2.2)) := by
  constructor
  · intro h
    rw [loopAux_succ, if_pos h]
  · intro h
    rw [loopAux_succ, if_neg h]

/-- C1 witness: the amended statement evaluated on the concrete
`answer: 42` environment at turn 1. -/
theorem c1_witness :
    interactCompCall envAnswer42 probX 5 =
      ("answer: 42", [answerRecord 0 ("t", "answer: 42", 1) "answer"], 0 + 1) :=
  (c1_amended_answer_exit envAnswer42 probX 5 4 0 [] 0).1 rfl

/-- C2: every run returns a transcript of between 1 and
`max_turns + 1` records, record `i` carries turn index `i + 1`, the
last record is always an `answer` record, no `answer` record precedes
the last one; and if every decision classifies as `invalid`, all
`max_turns` in-budget turns are recorded as `invalid` and a forced
answer record at turn `max_turns + 1` terminates the transcript. -/
theorem c2_transcript_invariants (env : Env) (prob : Problem) (k : Nat) :
    1 ≤ (interactCompCall env prob k).2.1.length
    ∧ (interactCompCall env prob k).2.1.length ≤ k + 1
    ∧ turnsIndexed (interactCompCall env prob k).2.1
    ∧ lastIsAnswer (interactCompCall env prob k).2.1
    ∧ noAnswerBeforeLast (interactCompCall env prob k).2.1
    ∧ ((∀ s, getActionType (getAgentDecision (env.decide s)).2.1 = "invalid") →
        (interactCompCall env prob k).2.1.length = k + 1
        ∧ (∀ i (h : i < (interactCompCall env prob k).2.1.length), i < k →
            ((interactCompCall env prob k).2.1.get ⟨i, h⟩).action_type = "invalid")
        ∧ (∃ r, (interactCompCall env prob k).2.1.getLast? = some r
              ∧ r.forced = true ∧ r.turn = k + 1 ∧ r.action_type = "answer")) := by
  obtain ⟨pre, last, h1, h2, h3, h4, h5, h6⟩ :=
    loopAux_shape env prob k k 0 [] 0 (Nat.zero_add k) rfl trivial
      (fun x hx => absurd hx (List.not_mem_nil x))
  have hcall : (interactCompCall env prob k).2.1 = pre ++ [last] := h1
  refine ⟨?_, ?_, ?_, ?_, ?_, ?_⟩
  · rw [hcall]
    simp
  · rw [hcall]
    exact h3
  · rw [hcall]
    intro i h
    have := turnsFrom_get (pre ++ [last]) 1 h4 i h
    omega
  · exact ⟨last, by rw [hcall]; exact List.getLast?_concat pre, h5⟩
  · rw [hcall]
    intro i h hlt
    have hi : i < pre.length := by
      simp only [List.length_append, List.length_singleton] at hlt
      omega
    have hget : (pre ++ [last]).get ⟨i, h⟩ = pre.get ⟨i, hi⟩ := by
      rw [List.get_eq_getElem, List.get_eq_getElem]
      exact List.getElem_append_left hi
    rw [hget]
    exact h6 _ (List.get_mem pre i hi)
  · intro hall
    obtain ⟨mid, last2, hm1, hm2, hm3, hm4, hm5, hm6⟩ :=
      loopAux_allInvalid env prob k hall k 0 [] 0
    have hcall2 : (interactCompCall env prob k).2.1 = mid ++ [last2] := by
      rw [show (interactCompCall env prob k).2.1
          = (loopAux env prob k k 0 [] 0).2.1 from rfl, hm1]
      simp
    refine ⟨?_, ?_, ?_⟩
    · rw [hcall2]
      simp only [List.length_append, List.length_singleton]
      omega
    · rw [hcall2]
      intro i h hik
      have hi : i < mid.length := by omega
      have hget : (mid ++ [last2]).get ⟨i, h⟩ = mid.get ⟨i, hi⟩ := by
        rw [List.get_eq_getElem, List.get_eq_getElem]
        exact List.getElem_append_left hi
      rw [hget]
      exact hm3 _ (List.get_mem mid i hi)
    · exact ⟨last2, by rw [hcall2]; exact List.getLast?_concat mid, hm4, hm5, hm6⟩

/-- C2 witness: the all-`invalid` conjunct evaluated on the concrete
environment whose every decision is the unclassifiable `garbage`, with
`max_turns = 2`. -/
theorem c2_witness :
    (∀ s, getActionType (getAgentDecision (envAllInvalid.decide s)).2.1 = "invalid")
    ∧ (interactCompCall envAllInvalid probX 2).2.1.length = 2 + 1 :=
  ⟨fun _ => rfl,
   ((c2_transcript_invariants envAllInvalid probX 2).2.2.2.2.2 (fun _ => rfl)).1⟩

/-- C5: a decision-port call that fails all its (spec-modelled) 3
retry attempts is converted to the sentinel decision
`("no thought", "no action", 0)` — never re-raised; the sentinel action
classifies as `invalid`, the loop appends exactly one invalid record at
that turn with cost 0 and proceeds to the next turn; a successful first
attempt short-circuits the retry. -/
theorem c5_decision_failure_degraded (env : Env) (prob : Problem)
    (k r turn : Nat) (hist : List TurnRecord) (tc : ℚ) (e : String)
    (hfail : env.decide (buildPrompt prob.question hist turn k) = Except.error e) :
    getAgentDecision (env.decide (buildPrompt prob.question hist turn k))
        = ("no thought", "no action", 0)
    ∧ getActionType "no action" = "invalid"
    ∧ loopAux env prob k (r + 1) turn hist tc =
        loopAux env prob k r (turn + 1)
          (hist ++ [invalidRecord turn ("no thought", "no action", 0)]) (tc + 0)
    ∧ (∀ e1 e2 e3 : String,
        getAgentDecision (retryCall (Except.error e1) (Except.error e2)
          (Except.error e3)) = ("no thought", "no action", 0))
    ∧ (∀ (v : String × String × ℚ) (a2 a3 : Except String (String × String × ℚ)),
        retryCall (Except.ok v) a2 a3 = Except.ok v) := by
  have hd : getAgentDecision (env.decide (buildPrompt prob.question hist turn k))
      = ("no thought", "no action", 0) := by
    rw [hfail]
    rfl
  refine ⟨hd, rfl, ?_, fun e1 e2 e3 => rfl, fun v a2 a3 => rfl⟩
  rw [loopAux_succ, hd]
  rfl

/-- C5 witness: the degradation evaluated on the concrete environment
whose decision port always raises. -/
theorem c5_witness :
    envDecideFails.decide (buildPrompt probX.question [] 0 2) = Except.error "down"
    ∧ loopAux envDecideFails probX 2 2 0 [] 0 =
        loopAux envDecideFails probX 2 1 1
          ([] ++ [invalidRecord 0 ("no thought", "no action", 0)]) (0 + 0) :=
  ⟨rfl, (c5_decision_failure_degraded envDecideFails probX 2 1 0 [] 0 "down"
    rfl).2.2.1⟩

/-- C7: when the turn budget is exhausted the loop unconditionally
performs exactly one forced-answer decision on a prompt built from the
accumulated transcript: an `answer:`-prefixed action yields its payload
(stripped) as final answer, anything else yields the sentinel
`No final answer provided`; the appended record is marked
`forced = true` at turn `max_turns + 1`; a run performs at most
`max_turns + 1` decision invocations, and exactly that many when no
in-budget decision classifies as `answer`. -/
theorem c7_forced_answer (env : Env) (prob : Problem) (k turn : Nat)
    (hist : List TurnRecord) (tc : ℚ) :
    loopAux env prob k 0 turn hist tc =
      ((forceAnswer env prob.question hist).1,
       hist ++ [forcedRecord k (forceAnswer env prob.question hist).1
         (forceAnswer env prob.question hist).2],
       tc + (forceAnswer env prob.question hist).2)
    ∧ (strStartsWith (getAgentDecision
          (env.decide (forcePromptStr prob.question hist))).2.1 "answer:" = true →
        forceAnswer env prob.question hist =
          (pyStrip (strDrop (getAgentDecision
              (env.decide (forcePromptStr prob.question hist))).2.1 7),
           (getAgentDecision (env.decide (forcePromptStr prob.question hist))).2.2))
    ∧ (strStartsWith (getAgentDecision
          (env.decide (forcePromptStr prob.question hist))).2.1 "answer:" = false →
        forceAnswer env prob.question hist =
          ("No final answer provided",
           (getAgentDecision (env.decide (forcePromptStr prob.question hist))).2.2))
    ∧ (forcedRecord k (forceAnswer env prob.question hist).1
        (forceAnswer env prob.question hist).2).forced = true
    ∧ loopDecisionCalls env prob k k 0 [] ≤ k + 1
    ∧ ((∀ s, getActionType (getAgentDecision (env.decide s)).2.1 ≠ "answer") →
        loopDecisionCalls env prob k k 0 [] = k + 1) := by
  refine ⟨loopAux_zero env prob k turn hist tc, ?_, ?_, rfl,
    loopDecisionCalls_le env prob k k 0 [],
    fun hne => loopDecisionCalls_eq env prob k hne k 0 []⟩
  · intro h
    unfold forceAnswer
    rw [if_pos h]
  · intro h
    unfold forceAnswer
    rw [if_neg (by simp [h])]

/-- C7 witness: on the all-`invalid` environment with budget 2 the run
makes exactly 3 decision invocations and the forced answer is the
sentinel. -/
theorem c7_witness :
    loopDecisionCalls envAllInvalid probX 2 2 0 [] = 2 + 1
    ∧ forceAnswer envAllInvalid probX.question [] = ("No final answer provided", 2) :=
  ⟨(c7_forced_answer envAllInvalid probX 2 0 [] 0).2.2.2.2.2
      (fun _ => (by decide : getActionType "garbage" ≠ "answer")),
   (c7_forced_answer envAllInvalid probX 2 0 [] 0).2.2.1 rfl⟩

/-- C8 counterexample: with every decision `ask: is it red?` and a
raising clarifier, the ask turn forwards the WHOLE stripped action
(`ask: is it red?`, prefix retained, not the text after the prefix),
and the response sentinel recorded is `Error in response`, not
`error`; the loop still continues into the forced turn. -/
theorem c8_counterexample :
    ((interactCompCall envAskFails probX 1).2.1.map
        (fun r => (r.action_type, r.question_asked, r.response, r.error)))
      = [("ask", some "ask: is it red?", some "Error in response", some "boom"),
         ("answer", none, none, none)]
    ∧ (some "ask: is it red?" : Option String) ≠ some "is it red?"
    ∧ (some "Error in response" : Option String) ≠ some "error" :=
  ⟨rfl, by decide, by decide⟩

/-- C8 (amended): a turn whose action classifies as `ask` forwards the
ENTIRE action string stripped (the `ask:` prefix retained) to the
clarifier port together with the problem's hidden context; if the
clarifier raises, the failure is caught, the record's `response` field
is set to the sentinel `Error in response`, the exception message is
recorded under `error`, and the loop continues to the next turn
regardless. -/
theorem c8_amended_ask_handler (env : Env) (prob : Problem)
    (k r turn : Nat) (hist : List TurnRecord) (tc : ℚ)
    (hask : getActionType (getAgentDecision
        (env.decide (buildPrompt prob.question hist turn k))).2.1 = "ask") :
    loopAux env prob k (r + 1) turn hist tc =
      loopAux env prob k r (turn + 1)
        (hist ++ [askRecord env prob turn
          (getAgentDecision (env.decide (buildPrompt prob.question hist turn k)))
          "ask"])
        (tc + (getAgentDecision
          (env.decide (buildPrompt prob.question hist turn k))).2.2)
    ∧ (askRecord env prob turn
        (getAgentDecision (env.decide (buildPrompt prob.question hist turn k)))
        "ask").question_asked
      = some (pyStrip (getAgentDecision
          (env.decide (buildPrompt prob.question hist turn k))).2.1)
    ∧ (∀ e, env.clarify prob.context
          (pyStrip (getAgentDecision
            (env.decide (buildPrompt prob.question hist turn k))).2.1)
        = Except.error e →
        (askRecord env prob turn
          (getAgentDecision (env.decide (buildPrompt prob.question hist turn k)))
          "ask").response = some "Error in response"
        ∧ (askRecord env prob turn
            (getAgentDecision (env.decide (buildPrompt prob.question hist turn k)))
            "ask").error = some e) := by
  refine ⟨?_, askRecord_question_asked .., ?_⟩
  · rw [loopAux_succ, if_neg (by rw [hask]; decide), hask]
    have hs : stepRecord env prob turn
        (getAgentDecision (env.decide (buildPrompt prob.question hist turn k)))
        "ask"
      = askRecord env prob turn
        (getAgentDecision (env.decide (buildPrompt prob.question hist turn k)))
        "ask" := by
      unfold stepRecord
      rw [if_pos rfl]
    rw [hs]
  · intro e he
    constructor
    · simp only [askRecord]
      rw [he]
    · simp only [askRecord]
      rw [he]

/-- C8 witness: the amended statement evaluated on the concrete
environment with a raising clarifier. -/
theorem c8_witness :
    ((askRecord envAskFails probX 0 ("t", "ask: is it red?", 1) "ask").question_asked
        = some "ask: is it red?")
    ∧ ((askRecord envAskFails probX 0 ("t", "ask: is it red?", 1) "ask").response
        = some "Error in response")
    ∧ ((askRecord envAskFails probX 0 ("t", "ask: is it red?", 1) "ask").error
        = some "boom") :=
  ⟨(c8_amended_ask_handler envAskFails probX 1 0 0 [] 0 rfl).2.1,
   ((c8_amended_ask_handler envAskFails probX 1 0 0 [] 0 rfl).2.2 "boom" rfl).1,
   ((c8_amended_ask_handler envAskFails probX 1 0 0 [] 0 rfl).2.2 "boom" rfl).2⟩

end InteractComp
